import Mathlib

/-!
Verification of libforensic1394 against its specification.

The development shallowly embeds the portable layer of the library
(src/common.c, src/csr.c, src/common.h, src/forensic1394.h) and the Linux
backend (src/linux/juju.c).  Machine integers are modelled as `Nat` with
explicit masking: a `uint32_t` load from the ROM is `quadlet rom i`, and
`size_t` subtraction, which wraps, is `usub`.
-/

/-! ## Result codes (src/forensic1394.h, forensic1394_result) -/

def FORENSIC1394_RESULT_SUCCESS : Int := 0

def FORENSIC1394_RESULT_OTHER_ERROR : Int := -1

def FORENSIC1394_RESULT_BUS_RESET : Int := -2

def FORENSIC1394_RESULT_NO_PERM : Int := -3

def FORENSIC1394_RESULT_BUSY : Int := -4

def FORENSIC1394_RESULT_IO_ERROR : Int := -5

def FORENSIC1394_RESULT_IO_SIZE : Int := -6

/-- Modelled from the spec: the revision of forensic1394.h present in the tree
is older than common.c, common.h and linux/juju.c, which use
FORENSIC1394_RESULT_IO_TIMEOUT (absent from that header revision).  The spec's
result table (section 4.5) lists code -7 as IO_TIMEOUT, "no completion within
the request timeout". -/
def FORENSIC1394_RESULT_IO_TIMEOUT : Int := -7

/-- Modelled from the spec: the sentinel FORENSIC1394_RESULT_END sits one past
the last valid code.  The spec's result table ends at -7 (IO_TIMEOUT) and
common.c's result_str has eight entries, so the sentinel is -8.  (The stale
header revision in the tree still says -7, predating the IO_TIMEOUT code.) -/
def FORENSIC1394_RESULT_END : Int := -8

/-- Request timeout in milliseconds (src/common.h, FORENSIC1394_TIMEOUT_MS). -/
def FORENSIC1394_TIMEOUT_MS : Nat := 150

/-! ## CSR parser (src/csr.c, src/csr.h)

The ROM is modelled as a total map from quadlet index to quadlet value; the C
array is `uint32_t rom[256]`, so every load is masked to 32 bits by `quadlet`.
Name buffers (`char buf[64]`) are modelled as byte lists of fixed length. -/

/-- A `uint32_t` load `rom[i]`. -/
def quadlet (rom : Nat → Nat) (i : Nat) : Nat := rom i % 2 ^ 32

/-- `size_t` subtraction: wraps modulo 2^64 (both arguments below 2^64). -/
def usub (a b : Nat) : Nat := (a + 2 ^ 64 - b) % 2 ^ 64

/-- CSR_NQUAD(x) = x >> 16 & 0xff -/
def CSR_NQUAD (x : Nat) : Nat := (x >>> 16) &&& 0xff

/-- CSR_KEY(x) = x >> 24 -/
def CSR_KEY (x : Nat) : Nat := x >>> 24

/-- CSR_VALUE(x) = x & 0x00ffffff -/
def CSR_VALUE (x : Nat) : Nat := x &&& 0x00ffffff

def CSR_1394_BUS : Nat := 0x31333934

def CSR_VENDOR_KEY : Nat := 0x03

def CSR_MODEL_KEY : Nat := 0x17

def CSR_DESC_LEAF_KEY : Nat := 0x81

/-- get_length (csr.c): inclusive length of the directory at rom[diroff],
or 0 when the header lies past index 255 or the directory would extend past
index 255. -/
def get_length (rom : Nat → Nat) (diroff : Nat) : Nat :=
  if diroff > 255 then 0
  else
    let nquad := CSR_NQUAD (quadlet rom diroff)
    if diroff + nquad > 255 then 0
    else nquad + 1

/-- The byte shifts of parse_text_leaf: const int shift[] = 24, 16, 8, 0. -/
def leaf_shift (j : Nat) : Nat := [24, 16, 8, 0].getD j 0

/-- parse_text_leaf (csr.c) acting on a name buffer of length `buf.length`
(the C buffer `char buf[maxb]`).  The buffer is zeroed first; on a valid
minimal ASCII leaf, `numb = min((numq - 3) * 4, maxb - 1)` bytes are copied,
with the `size_t` arithmetic of the source (numq - 3 wraps when numq < 3). -/
def parse_text_leaf (rom : Nat → Nat) (offset : Nat) (buf : List Nat) : List Nat :=
  let maxb := buf.length
  let numq := get_length rom offset
  if numq = 0 then List.replicate maxb 0
  else if quadlet rom (offset + 1) ≠ 0 then List.replicate maxb 0
  else if quadlet rom (offset + 2) ≠ 0 then List.replicate maxb 0
  else
    let numb := min ((usub numq 3 * 4) % 2 ^ 64) (usub maxb 1)
    (List.range maxb).map (fun i =>
      if i < numb then (quadlet rom (offset + 3 + i / 4) >>> leaf_shift (i % 4)) &&& 0xff
      else 0)

/-- parse_key (csr.c): searches the directory at diroff for `key`; on a match
the 24-bit value replaces `value`, and when the entry after the match is a
descriptor-leaf pointer (key 0x81) the text leaf it points at is parsed into
the buffer.  Returns the (value, buffer) pair after the call. -/
def parse_key (rom : Nat → Nat) (diroff key : Nat) (value : Nat) (bufval : List Nat) :
    Nat × List Nat :=
  let nq := get_length rom diroff
  match (List.range' 1 (nq - 1)).find? (fun i => CSR_KEY (quadlet rom (diroff + i)) == key) with
  | none => (value, bufval)
  | some i =>
      let v := CSR_VALUE (quadlet rom (diroff + i))
      if i + 1 < nq ∧ CSR_KEY (quadlet rom (diroff + i + 1)) = CSR_DESC_LEAF_KEY then
        (v, parse_text_leaf rom (diroff + i + 1 + CSR_VALUE (quadlet rom (diroff + i + 1))) bufval)
      else (v, bufval)

/-- Reinterpret a 64-bit pattern as a signed int64_t (two's complement). -/
def int64_of_u64 (n : Nat) : Int :=
  if n % 2 ^ 64 < 2 ^ 63 then (n % 2 ^ 64 : Nat) else (n % 2 ^ 64 : Nat) - 2 ^ 64

/-- The portable device record (src/common.h, struct _forensic1394_dev),
restricted to the fields the CSR parser touches or reads. -/
structure forensic1394_dev where
  product_name : List Nat
  product_id : Nat
  vendor_name : List Nat
  vendor_id : Nat
  max_req : Nat
  guid : Int
  rom : Nat → Nat

/-- common_parse_csr (csr.c). -/
def common_parse_csr (dev : forensic1394_dev) : forensic1394_dev :=
  let rom := dev.rom
  let buslen := get_length rom 0
  if buslen < 5 then dev
  else
    let dev1 :=
      if quadlet rom 1 = CSR_1394_BUS then
        { dev with max_req := 2 <<< ((quadlet rom 2 >>> 12) &&& 0xf) }
      else
        { dev with max_req := 512 }
    let dev2 := { dev1 with guid := int64_of_u64 ((quadlet rom 3) <<< 32 ||| quadlet rom 4) }
    let pv := parse_key rom buslen CSR_VENDOR_KEY dev2.vendor_id dev2.vendor_name
    let dev3 := { dev2 with vendor_id := pv.1, vendor_name := pv.2 }
    let pm := parse_key rom buslen CSR_MODEL_KEY dev3.product_id dev3.product_name
    { dev3 with product_id := pm.1, product_name := pm.2 }

/-! ### Instrumentation: the quadlet indices each parsing function loads

Each `_reads` function lists, in order, the ROM indices the corresponding C
function dereferences (`rom[i]`).  They mirror the control flow of the source
exactly. -/

/-- get_length reads rom[diroff] once, and only after checking diroff <= 255. -/
def get_length_reads (diroff : Nat) : List Nat :=
  if diroff > 255 then [] else [diroff]

/-- The ROM indices parse_text_leaf loads: the leaf header via get_length, the
two spec/language quadlets at offset+1 and offset+2 (short-circuit order), and
the `numb` copied bytes at offset+3+i/4. -/
def parse_text_leaf_reads (rom : Nat → Nat) (offset maxb : Nat) : List Nat :=
  get_length_reads offset ++
    (let numq := get_length rom offset
     if numq = 0 then []
     else
       [offset + 1] ++
         (if quadlet rom (offset + 1) ≠ 0 then []
          else
            [offset + 2] ++
              (if quadlet rom (offset + 2) ≠ 0 then []
               else
                 let numb := min ((usub numq 3 * 4) % 2 ^ 64) (usub maxb 1)
                 (List.range numb).map (fun i => offset + 3 + i / 4))))

/-- The ROM indices parse_key loads: the directory header via get_length, the
entries scanned up to the first key match (or the whole directory when there is
none), the entry after the match when it exists, and the leaf reads when that
entry is a descriptor-leaf pointer. -/
def parse_key_reads (rom : Nat → Nat) (diroff key maxb : Nat) : List Nat :=
  get_length_reads diroff ++
    (let nq := get_length rom diroff
     match (List.range' 1 (nq - 1)).find? (fun i => CSR_KEY (quadlet rom (diroff + i)) == key) with
     | none => (List.range' 1 (nq - 1)).map (fun i => diroff + i)
     | some i =>
         (List.range' 1 i).map (fun j => diroff + j) ++
           (if i + 1 < nq then
              [diroff + i + 1] ++
                (if CSR_KEY (quadlet rom (diroff + i + 1)) = CSR_DESC_LEAF_KEY then
                   parse_text_leaf_reads rom
                     (diroff + i + 1 + CSR_VALUE (quadlet rom (diroff + i + 1))) maxb
                 else [])
            else []))

/-- The ROM indices common_parse_csr loads: the bus-info header via get_length,
rom[1] (and rom[2] on the 1394 branch), rom[3] and rom[4] for the GUID, then
the vendor and model searches of the root directory (name buffers are 64
bytes). -/
def common_parse_csr_reads (rom : Nat → Nat) : List Nat :=
  get_length_reads 0 ++
    (let buslen := get_length rom 0
     if buslen < 5 then []
     else
       [1] ++ (if quadlet rom 1 = CSR_1394_BUS then [2] else []) ++ [3, 4] ++
         parse_key_reads rom buslen CSR_VENDOR_KEY 64 ++
         parse_key_reads rom buslen CSR_MODEL_KEY 64)

/-! ## Result string table (src/common.c) -/

/-- result_str (common.c), indexed by the negated result code. -/
def result_str : List String :=
  ["Success", "General error", "Bus reset has occurred", "Insufficient permisisons",
   "Device is busy", "General I/O error", "Bad I/O request size", "I/O timeout"]

/-- forensic1394_get_result_str (common.c): the string for a valid code
(r <= 0 and r > FORENSIC1394_RESULT_END), NULL (`none`) otherwise. -/
def forensic1394_get_result_str (r : Int) : Option String :=
  if r ≤ 0 ∧ r > FORENSIC1394_RESULT_END then result_str.get? (-r).toNat
  else none

/-! ## Bus and device lifecycle (src/common.c, src/common.h)

Devices are identified by an abstract id (distinct heap pointers in C).
The observable actions of the lifecycle functions are collected in an event
trace: closing a device, firing the destruction callback (callbacks are
identified by an abstract id as well), the platform destroy and free of a
device, and the discovery of a new device. -/

structure DevM where
  devId : Nat
  is_open : Bool
deriving DecidableEq

structure BusM where
  devices : List DevM
  ndev : Nat
  ondestroy : Option Nat
  sbp2_enabled : Bool
deriving DecidableEq

inductive Event where
  | closeDev (d : Nat)
  | callback (cb : Nat) (d : Nat)
  | platformDestroy (d : Nat)
  | freeDev (d : Nat)
  | discovered (d : Nat)
deriving DecidableEq

/-- The loop body of forensic1394_destroy_all_devices (common.c) for one
device: close it if open, fire the bus's ondestroy callback if set, then
platform_device_destroy and free. -/
def destroy_dev_events (ondestroy : Option Nat) (d : DevM) : List Event :=
  (if d.is_open then [Event.closeDev d.devId] else []) ++
    (match ondestroy with
     | some cb => [Event.callback cb d.devId]
     | none => []) ++
    [Event.platformDestroy d.devId, Event.freeDev d.devId]

/-- The trace of the destruction loop over the device list, in list order. -/
def destroy_devices_trace (ondestroy : Option Nat) : List DevM → List Event
  | [] => []
  | d :: ds => destroy_dev_events ondestroy d ++ destroy_devices_trace ondestroy ds

/-- forensic1394_destroy_all_devices (common.c): runs the destruction loop and
leaves the bus with no devices (dev = NULL, dev_link = NULL, ndev = 0). -/
def forensic1394_destroy_all_devices (bus : BusM) : BusM × List Event :=
  ({ bus with devices := [], ndev := 0 }, destroy_devices_trace bus.ondestroy bus.devices)

/-- forensic1394_destroy (common.c) destroys all devices, then the platform
bus state; only the device events are observable here. -/
def forensic1394_destroy (bus : BusM) : List Event :=
  (forensic1394_destroy_all_devices bus).2

/-! Platform discovery (platform_update_device_list, src/linux/juju.c).  Each
/dev/fw* node behaves in one of five ways: open(2) fails with EACCES (tallied
in perm_skipped), open fails otherwise, the GET_INFO ioctl fails (the zeroed
bus_reset event then makes the node look local), the node is local, or the
node is foreign and a device is allocated and appended. -/

inductive NodeKind where
  | openFailPerm
  | openFailOther
  | infoFail
  | localNode
  | foreignNode (d : Nat)
deriving DecidableEq

/-- One iteration of the discovery loop: state is (bus, perm_skipped, trace). -/
def scan_node (s : BusM × Nat × List Event) (n : NodeKind) : BusM × Nat × List Event :=
  match n with
  | NodeKind.openFailPerm => (s.1, s.2.1 + 1, s.2.2)
  | NodeKind.openFailOther => s
  | NodeKind.infoFail => s
  | NodeKind.localNode => s
  | NodeKind.foreignNode d =>
      ({ s.1 with devices := s.1.devices ++ [⟨d, false⟩], ndev := s.1.ndev + 1 },
       s.2.1, s.2.2 ++ [Event.discovered d])

structure ScanResult where
  bus : BusM
  ret : Int
  trace : List Event

/-- platform_update_device_list (juju.c): scans every node, appending foreign
ones; returns NO_PERM exactly when the bus ends with zero devices and at least
one node was skipped for permissions, SUCCESS otherwise. -/
def platform_update_device_list (bus : BusM) (nodes : List NodeKind) : ScanResult :=
  let s := nodes.foldl scan_node (bus, 0, [])
  { bus := s.1,
    ret := if s.1.ndev = 0 ∧ 0 < s.2.1 then FORENSIC1394_RESULT_NO_PERM
           else FORENSIC1394_RESULT_SUCCESS,
    trace := s.2.2 }

structure GetDevicesResult where
  bus : BusM
  ndevOut : Int
  trace : List Event

/-- forensic1394_get_devices (common.c): destroys the current device list
(firing the previously registered callback), runs platform discovery, writes
the count or the discovery result into *ndev, and stores the new ondestroy
callback. -/
def forensic1394_get_devices (bus : BusM) (nodes : List NodeKind) (ondestroy : Option Nat) :
    GetDevicesResult :=
  let p := forensic1394_destroy_all_devices bus
  let q := platform_update_device_list p.1 nodes
  { bus := { q.bus with ondestroy := ondestroy },
    ndevOut := if 0 < q.bus.ndev then (q.bus.ndev : Int) else q.ret,
    trace := p.2 ++ q.trace }

/-- forensic1394_enable_sbp2 (common.c).  The platform publisher's result is an
environment parameter; the returned Bool records whether the publisher was
invoked. -/
def forensic1394_enable_sbp2 (bus : BusM) (platformRet : Int) : BusM × Int × Bool :=
  if bus.sbp2_enabled then (bus, 1, false)
  else if platformRet = FORENSIC1394_RESULT_SUCCESS then
    ({ bus with sbp2_enabled := true }, platformRet, true)
  else (bus, platformRet, true)

/-! ## Request engine (send_requests and request_tcode, src/linux/juju.c) -/

inductive request_type where
  | read
  | write
deriving DecidableEq

/-- forensic1394_req (forensic1394.h): address and length (the caller buffer
itself is immaterial here). -/
structure forensic1394_req where
  addr : Nat
  len : Nat
deriving DecidableEq

/-- The four transaction codes request_tcode can produce (their numeric values
live in the kernel header linux/firewire-cdev.h). -/
inductive tcode where
  | TCODE_READ_QUADLET_REQUEST
  | TCODE_READ_BLOCK_REQUEST
  | TCODE_WRITE_QUADLET_REQUEST
  | TCODE_WRITE_BLOCK_REQUEST
deriving DecidableEq

/-- request_tcode (juju.c). -/
def request_tcode (r : forensic1394_req) (t : request_type) : tcode :=
  if t = request_type.read then
    if r.len = 4 then tcode.TCODE_READ_QUADLET_REQUEST else tcode.TCODE_READ_BLOCK_REQUEST
  else
    if r.len = 4 then tcode.TCODE_WRITE_QUADLET_REQUEST else tcode.TCODE_WRITE_BLOCK_REQUEST

def tcode.isQuadlet : tcode → Bool
  | tcode.TCODE_READ_QUADLET_REQUEST => true
  | tcode.TCODE_WRITE_QUADLET_REQUEST => true
  | _ => false

def tcode.isReadTcode : tcode → Bool
  | tcode.TCODE_READ_QUADLET_REQUEST => true
  | tcode.TCODE_READ_BLOCK_REQUEST => true
  | _ => false

/-- Response codes as classified by send_requests: RCODE_COMPLETE, RCODE_BUSY,
RCODE_GENERATION, and everything else. -/
inductive rcode where
  | complete
  | busy
  | generation
  | other
deriving DecidableEq

/-- What one poll of the device fd yields: no POLLIN within the 150 ms
timeout, a failing read(2), a FW_CDEV_EVENT_RESPONSE event, or an event of
another type (ignored by the loop). -/
inductive fw_event where
  | timeout
  | readFail
  | response (rc : rcode) (rlen : Nat) (closure : Nat)
  | otherEvent
deriving DecidableEq

/-- Outcome of the FW_CDEV_IOC_SEND_REQUEST ioctl for one submission: success,
failure with errno EIO (bad request size), or failure with another errno. -/
inductive submit_result where
  | ok
  | failEIO
  | failOther
deriving DecidableEq

/-- The inner while of send_requests that tops up the request pipeline
(REQUEST_PIPELINE_SZ = 1, so it runs at most one submission): either an abort
code when the FW_CDEV_IOC_SEND_REQUEST ioctl fails (IO_SIZE on EIO, IO_ERROR
otherwise), or the updated (i, inPipeline) pair. -/
def submit_phase (reqs : List forensic1394_req) (submits : Nat → submit_result)
    (i inPipeline : Nat) : Int ⊕ (Nat × Nat) :=
  if inPipeline < 1 ∧ i < reqs.length then
    match submits i with
    | submit_result.ok => Sum.inr (i + 1, inPipeline + 1)
    | submit_result.failEIO => Sum.inl FORENSIC1394_RESULT_IO_SIZE
    | submit_result.failOther => Sum.inl FORENSIC1394_RESULT_IO_ERROR
  else Sum.inr (i, inPipeline)

/-- The while loop of send_requests (juju.c), with REQUEST_PIPELINE_SZ = 1.
State: `i` requests submitted so far, `inPipeline` outstanding, `ncomp`
completions retired.  Each iteration tops up the pipeline and then consumes
one poll outcome; an exhausted outcome list means the poll never signals,
i.e. a timeout.  Returns the result code and the number of retired
completions. -/
def send_requests_loop (t : request_type) (reqs : List forensic1394_req)
    (submits : Nat → submit_result) :
    Nat → Nat → Nat → List fw_event → Int × Nat
  | i, inPipeline, ncomp, events =>
    if i < reqs.length ∨ 0 < inPipeline then
      match submit_phase reqs submits i inPipeline with
      | Sum.inl r => (r, ncomp)
      | Sum.inr (i2, p2) =>
        match events with
        | [] => (FORENSIC1394_RESULT_IO_TIMEOUT, ncomp)
        | e :: rest =>
          match e with
          | fw_event.timeout => (FORENSIC1394_RESULT_IO_TIMEOUT, ncomp)
          | fw_event.readFail => (FORENSIC1394_RESULT_IO_ERROR, ncomp)
          | fw_event.otherEvent => send_requests_loop t reqs submits i2 p2 ncomp rest
          | fw_event.response rc rlen closure =>
            match rc with
            | rcode.busy => (FORENSIC1394_RESULT_BUSY, ncomp)
            | rcode.generation => (FORENSIC1394_RESULT_BUS_RESET, ncomp)
            | rcode.other => (FORENSIC1394_RESULT_IO_ERROR, ncomp)
            | rcode.complete =>
              if t = request_type.read ∧
                  rlen ≠ (reqs.getD closure { addr := 0, len := 0 }).len then
                (FORENSIC1394_RESULT_IO_ERROR, ncomp)
              else send_requests_loop t reqs submits i2 (p2 - 1) (ncomp + 1) rest
    else (FORENSIC1394_RESULT_SUCCESS, ncomp)

/-- send_requests (juju.c): the loop from the initial state. -/
def send_requests (t : request_type) (reqs : List forensic1394_req)
    (submits : Nat → submit_result) (events : List fw_event) : Int × Nat :=
  send_requests_loop t reqs submits 0 0 0 events

/-! ## Theorems -/

/-- C2: forensic1394_get_result_str returns the non-NULL string exactly for
result codes in the range 0 down to -7 (IO_TIMEOUT included, with its table
entry "I/O timeout"), and NULL for every value outside that range. -/
theorem C2_result_str_range (r : Int) :
    ((forensic1394_get_result_str r).isSome = true ↔ (-7 ≤ r ∧ r ≤ 0)) ∧
    forensic1394_get_result_str FORENSIC1394_RESULT_IO_TIMEOUT = some "I/O timeout" := by
  constructor
  · constructor
    · intro h
      unfold forensic1394_get_result_str at h
      by_cases hc : r ≤ 0 ∧ r > FORENSIC1394_RESULT_END
      · have h2 := hc.2
        unfold FORENSIC1394_RESULT_END at h2
        exact ⟨by omega, hc.1⟩
      · rw [if_neg hc] at h
        simp at h
    · rintro ⟨h1, h2⟩
      interval_cases r <;> decide
  · decide

/-- C4: when the bus-information-block length is below five, common_parse_csr
aborts without touching the device, so a device holding the defaults (512-byte
max request, empty names, zero GUID) keeps them. -/
theorem C4_short_businfo_keeps_defaults (dev : forensic1394_dev)
    (hlen : get_length dev.rom 0 < 5)
    (hmax : dev.max_req = 512)
    (hvn : dev.vendor_name = List.replicate 64 0)
    (hpn : dev.product_name = List.replicate 64 0)
    (hguid : dev.guid = 0) :
    common_parse_csr dev = dev ∧
    (common_parse_csr dev).max_req = 512 ∧
    (common_parse_csr dev).vendor_name = List.replicate 64 0 ∧
    (common_parse_csr dev).product_name = List.replicate 64 0 ∧
    (common_parse_csr dev).guid = 0 := by
  have h : common_parse_csr dev = dev := by
    unfold common_parse_csr
    simp [hlen]
  exact ⟨h, by rw [h, hmax], by rw [h, hvn], by rw [h, hpn], by rw [h, hguid]⟩

/-- A device whose fields hold the documented defaults and whose ROM is all
zero (bus-info length 1 < 5). -/
def c4_dev : forensic1394_dev :=
  { product_name := List.replicate 64 0, product_id := 0,
    vendor_name := List.replicate 64 0, vendor_id := 0,
    max_req := 512, guid := 0, rom := fun _ => 0 }

theorem C4_witness :
    common_parse_csr c4_dev = c4_dev ∧
    (common_parse_csr c4_dev).max_req = 512 ∧
    (common_parse_csr c4_dev).vendor_name = List.replicate 64 0 ∧
    (common_parse_csr c4_dev).product_name = List.replicate 64 0 ∧
    (common_parse_csr c4_dev).guid = 0 :=
  C4_short_businfo_keeps_defaults c4_dev (by decide) rfl rfl rfl rfl

/-- C5: with a valid bus-information block, the maximum request size becomes
2 << lgsz, lgsz = (rom[2] >> 12) & 0xF, when rom[1] is the "1394" magic
0x31333934, and the safe default 512 otherwise. -/
theorem C5_max_req_selection (dev : forensic1394_dev)
    (hlen : ¬ get_length dev.rom 0 < 5) :
    (common_parse_csr dev).max_req =
      if quadlet dev.rom 1 = 0x31333934 then 2 <<< ((quadlet dev.rom 2 >>> 12) &&& 0xf)
      else 512 := by
  unfold common_parse_csr
  by_cases h1 : quadlet dev.rom 1 = CSR_1394_BUS
  · simp [hlen, CSR_1394_BUS] at h1 ⊢
    simp [h1]
  · simp [hlen, CSR_1394_BUS] at h1 ⊢
    simp [h1]

/-- The minimal-CSR device of the spec's first end-to-end scenario. -/
def c5_dev : forensic1394_dev :=
  { product_name := List.replicate 64 0, product_id := 0,
    vendor_name := List.replicate 64 0, vendor_id := 0,
    max_req := 512, guid := 0,
    rom := fun i =>
      if i = 0 then 0x04040000
      else if i = 1 then 0x31333934
      else if i = 2 then 0x0000a000
      else if i = 3 then 0x00112233
      else if i = 4 then 0x44556677
      else if i = 5 then 0x03000123
      else 0 }

theorem C5_witness :
    (common_parse_csr c5_dev).max_req =
      if quadlet c5_dev.rom 1 = 0x31333934 then 2 <<< ((quadlet c5_dev.rom 2 >>> 12) &&& 0xf)
      else 512 :=
  C5_max_req_selection c5_dev (by decide)

/-- C9: a request of length exactly 4 bytes is mapped to a QUADLET transaction
code and any other length to a BLOCK code, with the read or write variant
picked by the request type. -/
theorem C9_tcode_selection (r : forensic1394_req) (t : request_type) :
    (request_tcode r t).isQuadlet = decide (r.len = 4) ∧
    (request_tcode r t).isReadTcode = decide (t = request_type.read) := by
  cases t <;> by_cases h : r.len = 4 <;>
    simp [request_tcode, h, tcode.isQuadlet, tcode.isReadTcode]

/-- C8: once enable-SBP-2 has succeeded, each further call returns the
non-error value 1 without invoking the platform publisher and leaves the bus
unchanged; the enabled flag is set exactly when the publisher reports
SUCCESS. -/
theorem C8_enable_sbp2_idempotent (bus : BusM) (r1 r2 : Int)
    (hinit : bus.sbp2_enabled = false)
    (hsucc : r1 = FORENSIC1394_RESULT_SUCCESS) :
    ((forensic1394_enable_sbp2 bus r1).1.sbp2_enabled = true) ∧
    (forensic1394_enable_sbp2 (forensic1394_enable_sbp2 bus r1).1 r2 =
      ((forensic1394_enable_sbp2 bus r1).1, 1, false)) ∧
    (0 ≤ (forensic1394_enable_sbp2 (forensic1394_enable_sbp2 bus r1).1 r2).2.1) ∧
    (∀ r : Int, (forensic1394_enable_sbp2 bus r).1.sbp2_enabled = true ↔
      r = FORENSIC1394_RESULT_SUCCESS) := by
  have h1 : forensic1394_enable_sbp2 bus r1 =
      ({ bus with sbp2_enabled := true }, r1, true) := by
    unfold forensic1394_enable_sbp2
    rw [hinit, hsucc]
    simp
  refine ⟨by rw [h1], ?_, ?_, ?_⟩
  · rw [h1]
    unfold forensic1394_enable_sbp2
    simp
  · rw [h1]
    unfold forensic1394_enable_sbp2
    simp
  · intro r
    unfold forensic1394_enable_sbp2
    rw [hinit]
    by_cases hr : r = FORENSIC1394_RESULT_SUCCESS <;> simp [hr, hinit]

def c8_bus : BusM :=
  { devices := [], ndev := 0, ondestroy := none, sbp2_enabled := false }

theorem C8_witness :
    ((forensic1394_enable_sbp2 c8_bus 0).1.sbp2_enabled = true) ∧
    (forensic1394_enable_sbp2 (forensic1394_enable_sbp2 c8_bus 0).1 (-5) =
      ((forensic1394_enable_sbp2 c8_bus 0).1, 1, false)) ∧
    (0 ≤ (forensic1394_enable_sbp2 (forensic1394_enable_sbp2 c8_bus 0).1 (-5)).2.1) ∧
    (∀ r : Int, (forensic1394_enable_sbp2 c8_bus r).1.sbp2_enabled = true ↔
      r = FORENSIC1394_RESULT_SUCCESS) :=
  C8_enable_sbp2_idempotent c8_bus 0 (-5) rfl rfl

/-- A 256-quadlet ROM whose root directory holds a vendor entry followed by a
descriptor-leaf pointer aiming at quadlet 255, where a leaf header with
nquad = 0 passes get_length (255 + 0 <= 255, length 1) yet makes
parse_text_leaf read the two leaf-type quadlets at 256 and 257 and, the
size_t expression (numq - 3) * 4 having wrapped, copy bytes from quadlets 258
through 273.  All quadlets outside the 256-entry ROM read as 0 here. -/
def c1_rom : Nat → Nat := fun i =>
  if i = 0 then 0x04040000
  else if i = 5 then 0x00020000
  else if i = 6 then 0x03000001
  else if i = 7 then 0x810000f8
  else 0

/-- C1: contrary to the claim, CSR parsing can read quadlet indices greater
than 255: on c1_rom the parse of the descriptor leaf at offset 255 loads
quadlets 256, 257 and up to 273. -/
theorem C1_reads_past_rom_end :
    get_length c1_rom 0 = 5 ∧
    256 ∈ common_parse_csr_reads c1_rom ∧
    257 ∈ common_parse_csr_reads c1_rom ∧
    273 ∈ common_parse_csr_reads c1_rom := by
  decide

/-! Helper counts for the discovery loop. -/

def countForeign : List NodeKind → Nat
  | [] => 0
  | NodeKind.foreignNode _ :: ns => countForeign ns + 1
  | NodeKind.openFailPerm :: ns => countForeign ns
  | NodeKind.openFailOther :: ns => countForeign ns
  | NodeKind.infoFail :: ns => countForeign ns
  | NodeKind.localNode :: ns => countForeign ns

def countPermSkipped : List NodeKind → Nat
  | [] => 0
  | NodeKind.openFailPerm :: ns => countPermSkipped ns + 1
  | NodeKind.foreignNode _ :: ns => countPermSkipped ns
  | NodeKind.openFailOther :: ns => countPermSkipped ns
  | NodeKind.infoFail :: ns => countPermSkipped ns
  | NodeKind.localNode :: ns => countPermSkipped ns

def foreignDevs : List NodeKind → List DevM
  | [] => []
  | NodeKind.foreignNode d :: ns => ⟨d, false⟩ :: foreignDevs ns
  | NodeKind.openFailPerm :: ns => foreignDevs ns
  | NodeKind.openFailOther :: ns => foreignDevs ns
  | NodeKind.infoFail :: ns => foreignDevs ns
  | NodeKind.localNode :: ns => foreignDevs ns

def discoveredEvents : List NodeKind → List Event
  | [] => []
  | NodeKind.foreignNode d :: ns => Event.discovered d :: discoveredEvents ns
  | NodeKind.openFailPerm :: ns => discoveredEvents ns
  | NodeKind.openFailOther :: ns => discoveredEvents ns
  | NodeKind.infoFail :: ns => discoveredEvents ns
  | NodeKind.localNode :: ns => discoveredEvents ns

theorem scan_foldl (nodes : List NodeKind) (b : BusM) (p : Nat) (e : List Event) :
    nodes.foldl scan_node (b, p, e) =
      ({ b with devices := b.devices ++ foreignDevs nodes,
                ndev := b.ndev + countForeign nodes },
       p + countPermSkipped nodes, e ++ discoveredEvents nodes) := by
  induction nodes generalizing b p e with
  | nil => simp [foreignDevs, countForeign, countPermSkipped, discoveredEvents]
  | cons n ns ih =>
      cases n <;>
        simp [scan_node, foreignDevs, countForeign, countPermSkipped, discoveredEvents, ih,
          List.append_assoc, Nat.add_assoc, Nat.add_comm, Nat.add_left_comm]

/-- C3: with a non-NULL ndev out-parameter, *ndev receives the device count
(the number of foreign nodes, every failing node merely being skipped) when it
is positive, and otherwise the discovery result: NO_PERM exactly when at
least one node was skipped for permissions, SUCCESS otherwise. -/
theorem C3_ndev_out (bus : BusM) (nodes : List NodeKind) (ondestroy : Option Nat) :
    (forensic1394_get_devices bus nodes ondestroy).bus.ndev = countForeign nodes ∧
    (forensic1394_get_devices bus nodes ondestroy).ndevOut =
      (if 0 < countForeign nodes then (countForeign nodes : Int)
       else if 0 < countPermSkipped nodes then FORENSIC1394_RESULT_NO_PERM
       else FORENSIC1394_RESULT_SUCCESS) := by
  simp only [forensic1394_get_devices, platform_update_device_list,
    forensic1394_destroy_all_devices, scan_foldl]
  by_cases hf : 0 < countForeign nodes
  · simp [hf]
  · by_cases hp : 0 < countPermSkipped nodes
    · simp [hf, hp]
      omega
    · simp [hf, hp]

theorem count_callback_destroy_trace (cb x : Nat) (devs : List DevM) :
    (destroy_devices_trace (some cb) devs).count (Event.callback cb x) =
      (devs.map DevM.devId).count x := by
  induction devs with
  | nil => simp [destroy_devices_trace]
  | cons d ds ih =>
      cases hd : d.is_open <;>
        simp [destroy_devices_trace, destroy_dev_events, hd, List.count_append,
          List.count_cons, ih, Event.callback.injEq]

theorem callback_not_in_discovered (cb x : Nat) (nodes : List NodeKind) :
    Event.callback cb x ∉ discoveredEvents nodes := by
  induction nodes with
  | nil => simp [discoveredEvents]
  | cons n ns ih => cases n <;> simp [discoveredEvents, ih]

theorem close_mem_destroy_trace (ond : Option Nat) (devs : List DevM) (d : DevM)
    (hd : d ∈ devs) (ho : d.is_open = true) :
    Event.closeDev d.devId ∈ destroy_devices_trace ond devs := by
  induction devs with
  | nil => simp at hd
  | cons e es ih =>
      rcases List.mem_cons.1 hd with h | h
      · subst h
        simp [destroy_devices_trace, destroy_dev_events, ho]
      · simp [destroy_devices_trace, destroy_dev_events, ih h]

/-- C6: enumeration (and bus destruction) first destroys the whole previous
device list: the trace of forensic1394_get_devices is the destruction trace of
the old list followed by the discovery events, the intermediate bus holds no
devices, every open old device is closed, and with a registered callback the
callback event fires exactly once per old device, never among the discovery
events. -/
theorem C6_enumeration_destroys_old_list (bus : BusM) (nodes : List NodeKind)
    (od2 : Option Nat)
    (hnodup : (bus.devices.map DevM.devId).Nodup) :
    (forensic1394_get_devices bus nodes od2).trace =
      destroy_devices_trace bus.ondestroy bus.devices ++ discoveredEvents nodes ∧
    (forensic1394_destroy_all_devices bus).1.devices = [] ∧
    (forensic1394_destroy_all_devices bus).1.ndev = 0 ∧
    (∀ d ∈ bus.devices, d.is_open = true →
      Event.closeDev d.devId ∈ destroy_devices_trace bus.ondestroy bus.devices) ∧
    (∀ cb, bus.ondestroy = some cb → ∀ d ∈ bus.devices,
      (forensic1394_get_devices bus nodes od2).trace.count (Event.callback cb d.devId) = 1) ∧
    (∀ cb, bus.ondestroy = some cb → ∀ d ∈ bus.devices,
      (forensic1394_destroy bus).count (Event.callback cb d.devId) = 1) ∧
    (∀ cb x, Event.callback cb x ∉ discoveredEvents nodes) := by
  have htrace : (forensic1394_get_devices bus nodes od2).trace =
      destroy_devices_trace bus.ondestroy bus.devices ++ discoveredEvents nodes := by
    simp only [forensic1394_get_devices, platform_update_device_list,
      forensic1394_destroy_all_devices, scan_foldl, List.nil_append]
  have honce : ∀ cb, bus.ondestroy = some cb → ∀ d ∈ bus.devices,
      (destroy_devices_trace bus.ondestroy bus.devices).count
        (Event.callback cb d.devId) = 1 := by
    intro cb hcb d hd
    rw [hcb, count_callback_destroy_trace]
    exact List.count_eq_one_of_mem hnodup (List.mem_map_of_mem DevM.devId hd)
  refine ⟨htrace, rfl, rfl, ?_, ?_, ?_, fun cb x => callback_not_in_discovered cb x nodes⟩
  · intro d hd ho
    exact close_mem_destroy_trace bus.ondestroy bus.devices d hd ho
  · intro cb hcb d hd
    rw [htrace, List.count_append, honce cb hcb d hd,
      List.count_eq_zero.2 (callback_not_in_discovered cb d.devId nodes)]
  · intro cb hcb d hd
    exact honce cb hcb d hd

def c6_bus : BusM :=
  { devices := [⟨1, true⟩, ⟨2, false⟩], ndev := 2, ondestroy := some 9,
    sbp2_enabled := false }

def c6_nodes : List NodeKind :=
  [NodeKind.openFailPerm, NodeKind.foreignNode 5, NodeKind.localNode]

theorem C6_witness :
    (forensic1394_get_devices c6_bus c6_nodes none).trace =
      destroy_devices_trace c6_bus.ondestroy c6_bus.devices ++ discoveredEvents c6_nodes ∧
    (forensic1394_destroy_all_devices c6_bus).1.devices = [] ∧
    (forensic1394_destroy_all_devices c6_bus).1.ndev = 0 ∧
    (∀ d ∈ c6_bus.devices, d.is_open = true →
      Event.closeDev d.devId ∈ destroy_devices_trace c6_bus.ondestroy c6_bus.devices) ∧
    (∀ cb, c6_bus.ondestroy = some cb → ∀ d ∈ c6_bus.devices,
      (forensic1394_get_devices c6_bus c6_nodes none).trace.count
        (Event.callback cb d.devId) = 1) ∧
    (∀ cb, c6_bus.ondestroy = some cb → ∀ d ∈ c6_bus.devices,
      (forensic1394_destroy c6_bus).count (Event.callback cb d.devId) = 1) ∧
    (∀ cb x, Event.callback cb x ∉ discoveredEvents c6_nodes) :=
  C6_enumeration_destroys_old_list c6_bus c6_nodes none (by decide)

theorem submit_phase_inl (reqs : List forensic1394_req) (submits : Nat → submit_result)
    (i p : Nat) (r : Int) (h : submit_phase reqs submits i p = Sum.inl r) :
    r = FORENSIC1394_RESULT_IO_SIZE ∨ r = FORENSIC1394_RESULT_IO_ERROR := by
  unfold submit_phase at h
  by_cases hc : p < 1 ∧ i < reqs.length
  · rw [if_pos hc] at h
    cases hsub : submits i <;> rw [hsub] at h <;> simp at h <;> simp [h]
  · rw [if_neg hc] at h
    simp at h

theorem submit_phase_inr (reqs : List forensic1394_req) (submits : Nat → submit_result)
    (i p i2 p2 : Nat) (h : submit_phase reqs submits i p = Sum.inr (i2, p2))
    (hle : i ≤ reqs.length) (hw : i < reqs.length ∨ 0 < p) :
    i2 ≤ reqs.length ∧ 0 < p2 ∧ i2 + p = p2 + i := by
  unfold submit_phase at h
  by_cases hc : p < 1 ∧ i < reqs.length
  · rw [if_pos hc] at h
    cases hsub : submits i <;> rw [hsub] at h <;> simp at h
    obtain ⟨h1, h2⟩ := h
    omega
  · rw [if_neg hc] at h
    simp at h
    obtain ⟨h1, h2⟩ := h
    omega

theorem submit_phase_all_ok (reqs : List forensic1394_req)
    (submits : Nat → submit_result) (hs : ∀ j, submits j = submit_result.ok)
    (i p : Nat) :
    submit_phase reqs submits i p =
      (if p < 1 ∧ i < reqs.length then Sum.inr (i + 1, p + 1) else Sum.inr (i, p)) := by
  unfold submit_phase
  by_cases hc : p < 1 ∧ i < reqs.length <;> simp [hc, hs i]

theorem send_loop_success_count (t : request_type) (reqs : List forensic1394_req)
    (submits : Nat → submit_result) :
    ∀ (events : List fw_event) (i p n : Nat), i = p + n → i ≤ reqs.length →
      (send_requests_loop t reqs submits i p n events).1 = FORENSIC1394_RESULT_SUCCESS →
      (send_requests_loop t reqs submits i p n events).2 = reqs.length := by
  intro events
  induction events with
  | nil =>
      intro i p n hinv hle hres
      rw [send_requests_loop] at hres ⊢
      by_cases hw : i < reqs.length ∨ 0 < p
      · rw [if_pos hw] at hres ⊢
        rcases hsp : submit_phase reqs submits i p with r | ⟨i2, p2⟩ <;>
          simp only [hsp] at hres ⊢
        · rcases submit_phase_inl reqs submits i p r hsp with h | h <;>
            simp [h, FORENSIC1394_RESULT_IO_SIZE, FORENSIC1394_RESULT_IO_ERROR,
              FORENSIC1394_RESULT_SUCCESS] at hres
        · simp [FORENSIC1394_RESULT_IO_TIMEOUT, FORENSIC1394_RESULT_SUCCESS] at hres
      · rw [if_neg hw] at hres ⊢
        show n = reqs.length
        omega
  | cons e rest ih =>
      intro i p n hinv hle hres
      rw [send_requests_loop] at hres ⊢
      by_cases hw : i < reqs.length ∨ 0 < p
      · rw [if_pos hw] at hres ⊢
        rcases hsp : submit_phase reqs submits i p with r | ⟨i2, p2⟩ <;>
          simp only [hsp] at hres ⊢
        · rcases submit_phase_inl reqs submits i p r hsp with h | h <;>
            simp [h, FORENSIC1394_RESULT_IO_SIZE, FORENSIC1394_RESULT_IO_ERROR,
              FORENSIC1394_RESULT_SUCCESS] at hres
        · obtain ⟨hle2, hp2, heq2⟩ := submit_phase_inr reqs submits i p i2 p2 hsp hle hw
          cases e with
          | timeout =>
              simp [FORENSIC1394_RESULT_IO_TIMEOUT, FORENSIC1394_RESULT_SUCCESS] at hres
          | readFail =>
              simp [FORENSIC1394_RESULT_IO_ERROR, FORENSIC1394_RESULT_SUCCESS] at hres
          | otherEvent => exact ih i2 p2 n (by omega) hle2 hres
          | response rc rlen closure =>
              cases rc with
              | busy =>
                  simp [FORENSIC1394_RESULT_BUSY, FORENSIC1394_RESULT_SUCCESS] at hres
              | generation =>
                  simp [FORENSIC1394_RESULT_BUS_RESET, FORENSIC1394_RESULT_SUCCESS] at hres
              | other =>
                  simp [FORENSIC1394_RESULT_IO_ERROR, FORENSIC1394_RESULT_SUCCESS] at hres
              | complete =>
                  simp only [] at hres ⊢
                  by_cases hm : t = request_type.read ∧
                      rlen ≠ (reqs.getD closure { addr := 0, len := 0 }).len
                  · rw [if_pos hm] at hres
                    simp [FORENSIC1394_RESULT_IO_ERROR, FORENSIC1394_RESULT_SUCCESS] at hres
                  · rw [if_neg hm] at hres ⊢
                    exact ih i2 (p2 - 1) (n + 1) (by omega) hle2 hres
      · rw [if_neg hw] at hres ⊢
        show n = reqs.length
        omega

/-- C7: with the pipeline topped up, the next completion decides the batch: a
busy response returns BUSY, a generation mismatch returns BUS_RESET, any other
non-complete code returns IO_ERROR, a read completion whose payload length
differs from the request's length returns IO_ERROR, a poll timeout returns
IO_TIMEOUT, and a SUCCESS result is only produced once every request of the
batch has completed OK. -/
theorem C7_completion_classification (t : request_type) (reqs : List forensic1394_req)
    (submits : Nat → submit_result) (hs : ∀ j, submits j = submit_result.ok)
    (i p n : Nat) (rest : List fw_event) (rlen closure : Nat)
    (hwork : i < reqs.length ∨ 0 < p) :
    (send_requests_loop t reqs submits i p n
        (fw_event.response rcode.busy rlen closure :: rest)).1 =
      FORENSIC1394_RESULT_BUSY ∧
    (send_requests_loop t reqs submits i p n
        (fw_event.response rcode.generation rlen closure :: rest)).1 =
      FORENSIC1394_RESULT_BUS_RESET ∧
    (send_requests_loop t reqs submits i p n
        (fw_event.response rcode.other rlen closure :: rest)).1 =
      FORENSIC1394_RESULT_IO_ERROR ∧
    (t = request_type.read → rlen ≠ (reqs.getD closure { addr := 0, len := 0 }).len →
      (send_requests_loop t reqs submits i p n
          (fw_event.response rcode.complete rlen closure :: rest)).1 =
        FORENSIC1394_RESULT_IO_ERROR) ∧
    (send_requests_loop t reqs submits i p n (fw_event.timeout :: rest)).1 =
      FORENSIC1394_RESULT_IO_TIMEOUT ∧
    (∀ events : List fw_event,
      (send_requests t reqs submits events).1 = FORENSIC1394_RESULT_SUCCESS →
      (send_requests t reqs submits events).2 = reqs.length) := by
  refine ⟨?_, ?_, ?_, ?_, ?_, ?_⟩
  · rw [send_requests_loop, if_pos hwork, submit_phase_all_ok reqs submits hs i p]
    by_cases hc : p < 1 ∧ i < reqs.length
    · rw [if_pos hc]
    · rw [if_neg hc]
  · rw [send_requests_loop, if_pos hwork, submit_phase_all_ok reqs submits hs i p]
    by_cases hc : p < 1 ∧ i < reqs.length
    · rw [if_pos hc]
    · rw [if_neg hc]
  · rw [send_requests_loop, if_pos hwork, submit_phase_all_ok reqs submits hs i p]
    by_cases hc : p < 1 ∧ i < reqs.length
    · rw [if_pos hc]
    · rw [if_neg hc]
  · intro ht hlen
    subst ht
    rw [send_requests_loop, if_pos hwork, submit_phase_all_ok reqs submits hs i p]
    simp only [List.getD, List.get?_eq_getElem?] at hlen
    by_cases hc : p < 1 ∧ i < reqs.length
    · rw [if_pos hc]
      simp [hlen]
    · rw [if_neg hc]
      simp [hlen]
  · rw [send_requests_loop, if_pos hwork, submit_phase_all_ok reqs submits hs i p]
    by_cases hc : p < 1 ∧ i < reqs.length
    · rw [if_pos hc]
    · rw [if_neg hc]
  · intro events hres
    unfold send_requests at hres ⊢
    exact send_loop_success_count t reqs submits events 0 0 0 rfl (Nat.zero_le _) hres

theorem C7_witness :
    (send_requests_loop request_type.read [{ addr := 0, len := 4 }]
        (fun _ => submit_result.ok) 0 0 0
        [fw_event.response rcode.busy 0 0]).1 = FORENSIC1394_RESULT_BUSY :=
  (C7_completion_classification request_type.read [{ addr := 0, len := 4 }]
    (fun _ => submit_result.ok) (fun _ => rfl) 0 0 0 [] 0 0 (Or.inl (by decide))).1

/-- C10: parse_key is frame-preserving: when the searched key occurs nowhere in
the directory both the value and the name buffer come back unchanged, and when
it occurs but the entry after the first match is missing or is not a
descriptor-leaf pointer (key 0x81) the name buffer comes back unchanged. -/
theorem C10_parse_key_frame (rom : Nat → Nat) (diroff key value : Nat)
    (bufval : List Nat) :
    ((∀ i ∈ List.range' 1 (get_length rom diroff - 1),
        CSR_KEY (quadlet rom (diroff + i)) ≠ key) →
      parse_key rom diroff key value bufval = (value, bufval)) ∧
    (∀ i, (List.range' 1 (get_length rom diroff - 1)).find?
          (fun j => CSR_KEY (quadlet rom (diroff + j)) == key) = some i →
      ¬(i + 1 < get_length rom diroff ∧
          CSR_KEY (quadlet rom (diroff + i + 1)) = CSR_DESC_LEAF_KEY) →
      (parse_key rom diroff key value bufval).2 = bufval) := by
  constructor
  · intro h
    have hnone : (List.range' 1 (get_length rom diroff - 1)).find?
        (fun j => CSR_KEY (quadlet rom (diroff + j)) == key) = none := by
      rw [List.find?_eq_none]
      intro j hj
      simpa using h j hj
    simp only [parse_key]
    rw [hnone]
  · intro i hfind hnot
    simp only [parse_key]
    rw [hfind]
    simp only []
    rw [if_neg hnot]

/-- A ROM whose root directory (at quadlet 5) holds a vendor entry and a
spec-id entry but no model entry (key 0x17). -/
def c10_rom : Nat → Nat := fun i =>
  if i = 0 then 0x04040000
  else if i = 5 then 0x00020000
  else if i = 6 then 0x03000123
  else if i = 7 then 0x12000000
  else 0

theorem C10_witness :
    parse_key c10_rom 5 CSR_MODEL_KEY 7 [1, 2, 3] = (7, [1, 2, 3]) :=
  (C10_parse_key_frame c10_rom 5 CSR_MODEL_KEY 7 [1, 2, 3]).1 (by decide)
